import Mathlib

/-!
Verification development for the quedo transcription daemon
(`src/daemon`), covering the capture watchdog (`capture/mic.rs`), the
subprocess WAV validation (`capture/mic.rs`), the single-flight queue
(`controller/queue.rs`) and the controller event loop
(`controller/mod.rs`).

Modelling conventions:
* Machine integers (`u64`, `u32`, `usize`) are modelled as `Nat`; none of
  the modelled computations can overflow in a real run, so no modular
  reduction is inserted.
* `std::time::Instant` values are points on a single monotone `Nat`
  timeline; `a.elapsed()` at time `now` is `now - a`, and
  `now.duration_since(b)` is `now - b` (both clamp at zero exactly like
  the truncated `Nat` subtraction, and the Rust values are monotone so
  the clamp never fires on live data).
* Fallible Rust code (`AppResult<T>`) becomes `Except AppError T`.
* Mutex acquisition results are reified as a `LockResult` value: Rust
  only observes `Ok(guard)` or `Err(poisoned)`.
-/

namespace Quedo

/-! ### Error type (`src/daemon/src/error.rs`)

Only the variants constructible by the modelled code are included.
`display` reproduces the `thiserror` format strings used by the
`format!("...: {error}")` sites in the controller. -/

inductive AppError where
  | capture (detail : String)
  | binaryMissing (binary : String)
  | clipboard (detail : String)
  | controller (detail : String)
  | channelClosed (detail : String)
deriving DecidableEq

def AppError.display : AppError → String
  | .capture detail => "capture failed: " ++ detail
  | .binaryMissing binary => "binary `" ++ binary ++ "` missing from PATH"
  | .clipboard detail => "clipboard output failed: " ++ detail
  | .controller detail => "controller error: " ++ detail
  | .channelClosed detail => "channel closed: " ++ detail

/-! ### Capture watchdog (`src/daemon/src/capture/mic.rs`) -/

structure CaptureWatchdogConfig where
  arming_timeout : Nat
  stall_timeout : Nat
deriving DecidableEq

structure WatchdogSnapshot where
  armed : Bool
  stalled : Bool
  first_frame_seen : Bool
deriving DecidableEq

/-- Result of `Mutex::lock()`: a guard over the protected value, or a
poisoning error. -/
inductive LockResult (α : Type) where
  | ok (value : α)
  | poisoned
deriving DecidableEq

/-- In-process (`macos_capture`) watchdog state: `first_frame_seen` is an
`AtomicBool` (never fails to load), `last_frame_at` is a
`Mutex<Option<Instant>>` whose acquisition can fail, `started_at` is a
plain `Instant`. -/
structure WatchdogState where
  first_frame_seen : Bool
  last_frame_at : LockResult (Option Nat)
  started_at : Nat
deriving DecidableEq

/-- `WatchdogState::snapshot` (mic.rs lines 96-123), evaluated at time
`now`. -/
def WatchdogState.snapshot (st : WatchdogState) (cfg : CaptureWatchdogConfig)
    (now : Nat) : WatchdogSnapshot :=
  let first_seen := st.first_frame_seen
  let armed :=
    if first_seen then true
    else decide (now - st.started_at ≤ cfg.arming_timeout)
  let stalled :=
    if first_seen then
      match st.last_frame_at with
      | .ok guard =>
          (guard.map (fun instant => decide (cfg.stall_timeout < now - instant))).getD false
      | .poisoned => true
    else false
  { armed := armed, stalled := stalled, first_frame_seen := first_seen }

/-- Subprocess (`linux_capture`) watchdog state protected by one mutex. -/
structure LinuxWatchdogState where
  first_frame_seen : Bool
  last_size : Nat
  last_growth_at : Nat
deriving DecidableEq

/-- The mutation performed on the locked state by
`linux_capture::ActiveRecording::watchdog_snapshot` (mic.rs lines
340-349): file growth beyond the 44-byte header is a frame. -/
def linuxWatchdogObserve (state : LinuxWatchdogState) (size now : Nat) :
    LinuxWatchdogState :=
  if 44 < size then
    let state1 :=
      if !state.first_frame_seen then
        { state with first_frame_seen := true, last_growth_at := now }
      else state
    if state1.last_size < size then
      { state1 with last_size := size, last_growth_at := now }
    else state1
  else state

/-- `linux_capture::ActiveRecording::watchdog_snapshot` (mic.rs lines
332-372): reads the WAV file size, updates the locked state, and reports
armed/stalled; a failed lock yields the fail-safe snapshot and leaves
the state untouched. -/
def linux_watchdog_snapshot (lock : LockResult LinuxWatchdogState)
    (started_at : Nat) (cfg : CaptureWatchdogConfig) (size now : Nat) :
    LockResult LinuxWatchdogState × WatchdogSnapshot :=
  match lock with
  | .ok state0 =>
      let state := linuxWatchdogObserve state0 size now
      let armed :=
        if state.first_frame_seen then true
        else decide (now - started_at ≤ cfg.arming_timeout)
      let stalled :=
        state.first_frame_seen && decide (cfg.stall_timeout < now - state.last_growth_at)
      (.ok state,
       { armed := armed, stalled := stalled,
         first_frame_seen := state.first_frame_seen })
  | .poisoned =>
      (.poisoned, { armed := false, stalled := true, first_frame_seen := false })

/-! ### WAV header validation and subprocess stop (`mic.rs` lines 374-461) -/

/-- The bytes of `b"RIFF"`. -/
def riffMagic : List Nat := [82, 73, 70, 70]

/-- The bytes of `b"WAVE"`. -/
def waveMagic : List Nat := [87, 65, 86, 69]

/-- `linux_capture::validate_wav_header` over the recorder output file's
byte contents `data` (the file exists and is readable once the recorder
has been terminated; the claim-relevant branches are the length and
magic checks). -/
def validate_wav_header (path : String) (data : List Nat) :
    Except AppError Unit :=
  if data.length < 44 then
    .error (.capture ("recorded audio is not a valid WAV file (too short): " ++ path))
  else if data.length = 44 then
    .error (.capture ("recorded audio is empty (WAV header present but no PCM frames): " ++ path))
  else
    let header := data.take 12
    if header.take 4 ≠ riffMagic ∨ (header.drop 8).take 4 ≠ waveMagic then
      .error (.capture ("recorded audio is missing RIFF/WAVE header markers: " ++ path))
    else
      .ok ()

/-- `linux_capture::ActiveRecording::stop` (mic.rs lines 374-379):
terminate the recorder child, then validate the WAV header.
`termination` is the outcome of `terminate_recorder_gracefully`; every
error path of that helper wraps its detail in `AppError::Capture`, so a
failure is modelled as the capture detail string. -/
def subprocess_stop (termination : Option String) (wav_path : String)
    (data : List Nat) : Except AppError String :=
  match termination with
  | some detail => .error (.capture detail)
  | none =>
      match validate_wav_header wav_path data with
      | .error e => .error e
      | .ok _ => .ok wav_path

/-! ### Single-flight queue (`src/daemon/src/controller/queue.rs`) -/

structure SingleFlightQueue where
  max_in_flight : Nat
  in_flight : Nat
  pending : List String
deriving DecidableEq

def SingleFlightQueue.new (max_in_flight : Nat) : SingleFlightQueue :=
  { max_in_flight := max_in_flight, in_flight := 0, pending := [] }

def SingleFlightQueue.enqueue (q : SingleFlightQueue) (path : String) :
    Except AppError SingleFlightQueue :=
  if q.max_in_flight ≤ q.in_flight + q.pending.length then
    .error (.controller "single-flight queue full (max_in_flight=1)")
  else
    .ok { q with pending := q.pending ++ [path] }

def SingleFlightQueue.start_next (q : SingleFlightQueue) :
    Option String × SingleFlightQueue :=
  if q.max_in_flight ≤ q.in_flight then
    (none, q)
  else
    match q.pending with
    | [] => (none, q)
    | next :: rest =>
        (some next, { q with pending := rest, in_flight := q.in_flight + 1 })

def SingleFlightQueue.mark_finished (q : SingleFlightQueue) : SingleFlightQueue :=
  if 0 < q.in_flight then { q with in_flight := q.in_flight - 1 } else q

/-- One client call on the queue; results are discarded (the controller
reads them, but the queue state evolution is what the invariant is
about). -/
inductive QueueOp where
  | enq (path : String)
  | startNext
  | markFinished
deriving DecidableEq

def SingleFlightQueue.applyOp (q : SingleFlightQueue) : QueueOp → SingleFlightQueue
  | .enq path =>
      match q.enqueue path with
      | .ok q1 => q1
      | .error _ => q
  | .startNext => (q.start_next).2
  | .markFinished => q.mark_finished

def SingleFlightQueue.applyOps (q : SingleFlightQueue) (ops : List QueueOp) :
    SingleFlightQueue :=
  ops.foldl SingleFlightQueue.applyOp q

/-! ### Controller data model
(`src/daemon/src/controller/state.rs`, `events.rs`, `config/schema.rs`,
`transcription/scheduler.rs`) -/

/-- `ControllerState` exactly as declared in `controller/state.rs`: the
enum has four variants (there is no `Unavailable` variant in that
file, although `ui/tray.rs`, `runtime/app.rs` and the release-gate test
match on one). -/
inductive ControllerState where
  | idle
  | recording
  | processing
  | degraded (reason : String)
deriving DecidableEq

inductive OutputMode where
  | clipboardOnly
  | disabled
deriving DecidableEq

structure TranscriptResult where
  run_id : String
  backend : String
  transcript : String
  language : Option String
  warnings : List String
  finished_at_rfc3339 : String
deriving DecidableEq

/-- `ControllerOutput` from `controller/events.rs`. The `DoctorReport`
payload is produced by the out-of-scope doctor module and never
inspected by the controller, so it is not carried here. -/
inductive ControllerOutput where
  | stateChanged (state : ControllerState)
  | notification (message : String)
  | doctorReport
  | transcriptReady (result : TranscriptResult)
  | stopped
deriving DecidableEq

instance {ε α : Type} [DecidableEq ε] [DecidableEq α] :
    DecidableEq (Except ε α) := fun a b =>
  match a, b with
  | .error e1, .error e2 =>
      if h : e1 = e2 then isTrue (by rw [h])
      else isFalse (by intro hc; injection hc; contradiction)
  | .error _, .ok _ => isFalse (by intro hc; cases hc)
  | .ok _, .error _ => isFalse (by intro hc; cases hc)
  | .ok a1, .ok a2 =>
      if h : a1 = a2 then isTrue (by rw [h])
      else isFalse (by intro hc; injection hc; contradiction)

/-- `ControllerEvent` from `controller/events.rs`, enriched with the
environment responses the handler of that event consumes: the wall
clock reading (`now`, in whole seconds, the granularity of
`elapsed().as_secs()`), the result of the injected `start_recording`
closure, the result of `ActiveRecording::stop`, and the watchdog
snapshot of the live recording.  In the Rust loop these come from the
injected closures and the owned recording handle; making them event
payloads is the standard oracle encoding of that environment. -/
inductive ControllerEvent where
  | toggle (now : Nat) (start_result : Except AppError Unit)
      (stop_result : Except AppError String)
  | runDoctor
  | tick (now : Nat) (snapshot : WatchdogSnapshot)
      (stop_result : Except AppError String)
  | transcriptionFinished (wav_path : String)
      (result : Except String TranscriptResult)
  | shutdown
deriving DecidableEq

/-- The slice of `AppConfig` the controller loop reads
(`audio.max_recording_seconds`, `output.mode`; `audio.retain_audio`
only drives a filesystem delete with no `ControllerOutput`, and the
watchdog timeouts are consumed inside the capture module). -/
structure ControllerConfig where
  output_mode : OutputMode
  max_recording_seconds : Nat
deriving DecidableEq

/-- The mutable loop variables of `run_controller_loop_with`:
`state`, `active_recording` (presence of the owned handle),
`recording_started_at`, and the queue. -/
structure LoopState where
  state : ControllerState
  active_recording : Bool
  recording_started_at : Option Nat
  queue : SingleFlightQueue
deriving DecidableEq

/-- Outcome of handling one event: keep looping with a new state,
return `Ok(())` from the `Shutdown` arm, or propagate an error out of
the loop (the `?` on `spawn_next_job`; channel sends cannot fail in
this embedding because outputs are accumulated in a list). -/
inductive StepOutcome where
  | next (s : LoopState)
  | stoppedOk
  | failed (error : AppError)
deriving DecidableEq

/-- `spawn_next_job` (controller/mod.rs lines 356-395) restricted to its
queue effect: pop the next job and check it is the one just enqueued.
The `WorkerMessage::Transcribe` send always succeeds in this embedding. -/
def spawn_next_job (queue : SingleFlightQueue) (requested_wav_path : String) :
    Except AppError SingleFlightQueue :=
  match queue.start_next with
  | (none, _) => .error (.controller "queue was expected to have a job")
  | (some wav_path, queue1) =>
      if wav_path ≠ requested_wav_path then
        .error (.controller ("queue scheduling mismatch: expected " ++
          requested_wav_path ++ ", got " ++ wav_path))
      else
        .ok queue1

/-- The `ControllerEvent::Toggle` arm (controller/mod.rs lines 116-176). -/
def handleToggle (s : LoopState) (now : Nat)
    (start_result : Except AppError Unit)
    (stop_result : Except AppError String) :
    StepOutcome × List ControllerOutput :=
  match s.state with
  | .idle | .degraded _ =>
      match start_result with
      | .ok _ =>
          (.next { s with
              active_recording := true,
              recording_started_at := some now,
              state := .recording },
           [.stateChanged .recording, .notification "Recording started"])
      | .error error =>
          let detail := "recording start failed: " ++ error.display
          (.next { s with state := .degraded detail },
           [.stateChanged (.degraded detail), .notification detail])
  | .recording =>
      if s.active_recording then
        match stop_result with
        | .ok wav_path =>
            match s.queue.enqueue wav_path with
            | .error error =>
                let detail := "unable to enqueue recording: " ++ error.display
                (.next { s with
                    active_recording := false,
                    recording_started_at := none,
                    state := .degraded detail },
                 [.stateChanged (.degraded detail), .notification detail])
            | .ok queue1 =>
                match spawn_next_job queue1 wav_path with
                | .error error =>
                    (.failed error, [.stateChanged .processing])
                | .ok queue2 =>
                    (.next { s with
                        active_recording := false,
                        recording_started_at := none,
                        state := .processing,
                        queue := queue2 },
                     [.stateChanged .processing])
        | .error error =>
            let detail := "failed to finalize recording: " ++ error.display
            (.next { s with
                active_recording := false,
                recording_started_at := none,
                state := .degraded detail },
             [.stateChanged (.degraded detail), .notification detail])
      else
        (.next s, [])
  | .processing =>
      (.next s,
       [.notification "Transcription already in progress; finishing current job."])

/-- The watchdog block at the top of the `Tick` arm (controller/mod.rs
lines 186-217): runs only while a recording is held; `!armed` is
checked before `stalled`, and either finding stops the recording
best-effort and degrades. -/
def tickWatchdogPhase (s : LoopState) (snapshot : WatchdogSnapshot) :
    LoopState × List ControllerOutput :=
  if s.active_recording then
    if !snapshot.armed then
      let detail := "capture watchdog arming timeout exceeded (first_frame_seen=" ++
        toString snapshot.first_frame_seen ++ ")"
      ({ s with
          active_recording := false,
          recording_started_at := none,
          state := .degraded detail },
       [.stateChanged (.degraded detail),
        .notification "Capture watchdog arming timeout exceeded; recording aborted."])
    else if snapshot.stalled then
      let detail := "capture watchdog stall detected (first_frame_seen=" ++
        toString snapshot.first_frame_seen ++ ")"
      ({ s with
          active_recording := false,
          recording_started_at := none,
          state := .degraded detail },
       [.stateChanged (.degraded detail),
        .notification "Capture watchdog detected stalled input; recording aborted."])
    else (s, [])
  else (s, [])

/-- The `ControllerEvent::Tick` arm (controller/mod.rs lines 185-252).
The watchdog block runs first; the second block always executes
`active_recording.take()` and runs the max-duration check only when
both `recording_started_at` and the taken recording are present,
putting the recording back only in the not-yet-expired branch. -/
def handleTick (cfg : ControllerConfig) (s : LoopState) (now : Nat)
    (snapshot : WatchdogSnapshot)
    (stop_result : Except AppError String) :
    StepOutcome × List ControllerOutput :=
  let s1 := (tickWatchdogPhase s snapshot).1
  let outs1 := (tickWatchdogPhase s snapshot).2
  match s1.recording_started_at, s1.active_recording with
  | some started_at, true =>
      if cfg.max_recording_seconds < now - started_at then
        match stop_result with
        | .ok wav_path =>
            match s1.queue.enqueue wav_path with
            | .error error =>
                let detail := "unable to enqueue timed recording stop: " ++ error.display
                (.next { s1 with
                    active_recording := false,
                    recording_started_at := none,
                    state := .degraded detail },
                 outs1 ++ [.stateChanged (.degraded detail), .notification detail])
            | .ok queue1 =>
                match spawn_next_job queue1 wav_path with
                | .error error =>
                    (.failed error, outs1 ++ [.stateChanged .processing])
                | .ok queue2 =>
                    (.next { s1 with
                        active_recording := false,
                        recording_started_at := none,
                        state := .processing,
                        queue := queue2 },
                     outs1 ++ [.stateChanged .processing])
        | .error error =>
            let detail := "failed to finalize timed recording: " ++ error.display
            (.next { s1 with
                active_recording := false,
                recording_started_at := none,
                state := .degraded detail },
             outs1 ++ [.stateChanged (.degraded detail), .notification detail])
      else
        (.next s1, outs1)
  | _, _ =>
      (.next { s1 with active_recording := false }, outs1)

/-- The `ControllerEvent::TranscriptionFinished` arm (controller/mod.rs
lines 254-296).  `write_clipboard` is the injected clipboard closure;
the `retain_audio` file deletion produces no `ControllerOutput` and is
not modelled. -/
def handleFinished (cfg : ControllerConfig)
    (write_clipboard : String → Except AppError Unit) (s : LoopState)
    (result : Except String TranscriptResult) :
    StepOutcome × List ControllerOutput :=
  let queue1 := s.queue.mark_finished
  match result with
  | .ok result =>
      let emitReady : StepOutcome × List ControllerOutput :=
        (.next { s with state := .idle, queue := queue1 },
         [.transcriptReady result, .stateChanged .idle,
          .notification "Transcription complete"])
      if cfg.output_mode = .clipboardOnly then
        match write_clipboard result.transcript with
        | .error error =>
            let detail := "clipboard output failed: " ++ error.display
            (.next { s with state := .degraded detail, queue := queue1 },
             [.stateChanged (.degraded detail), .notification detail])
        | .ok _ => emitReady
      else emitReady
  | .error error =>
      let detail := "transcription job failed: " ++ error
      (.next { s with state := .degraded detail, queue := queue1 },
       [.stateChanged (.degraded detail), .notification detail])

/-- One iteration of the `run_controller_loop_with` event loop
(controller/mod.rs lines 110-311). -/
def stepController (cfg : ControllerConfig)
    (write_clipboard : String → Except AppError Unit) (s : LoopState) :
    ControllerEvent → StepOutcome × List ControllerOutput
  | .toggle now start_result stop_result =>
      handleToggle s now start_result stop_result
  | .runDoctor => (.next s, [.doctorReport])
  | .tick now snapshot stop_result =>
      handleTick cfg s now snapshot stop_result
  | .transcriptionFinished _wav_path result =>
      handleFinished cfg write_clipboard s result
  | .shutdown => (.stoppedOk, [.stopped])

inductive RunOutcome where
  | outOfEvents (s : LoopState)
  | stoppedOk
  | failed (error : AppError)
deriving DecidableEq

/-- Run the loop over a finite prefix of the event channel. -/
def runLoop (cfg : ControllerConfig)
    (write_clipboard : String → Except AppError Unit) :
    LoopState → List ControllerEvent → List ControllerOutput × RunOutcome
  | s, [] => ([], .outOfEvents s)
  | s, event :: rest =>
      match stepController cfg write_clipboard s event with
      | (.next s1, outs) =>
          let (outs2, outcome) := runLoop cfg write_clipboard s1 rest
          (outs ++ outs2, outcome)
      | (.stoppedOk, outs) => (outs, .stoppedOk)
      | (.failed error, outs) => (outs, .failed error)

/-- The loop variables as initialised in `run_controller_loop_with`
(controller/mod.rs lines 103-106). -/
def initialLoopState : LoopState :=
  { state := .idle, active_recording := false,
    recording_started_at := none, queue := SingleFlightQueue.new 1 }

/-- `run_controller_loop_with`: emits `StateChanged(Idle)` before the
loop, then processes events. -/
def runController (cfg : ControllerConfig)
    (write_clipboard : String → Except AppError Unit)
    (events : List ControllerEvent) : List ControllerOutput × RunOutcome :=
  (ControllerOutput.stateChanged .idle ::
      (runLoop cfg write_clipboard initialLoopState events).1,
   (runLoop cfg write_clipboard initialLoopState events).2)

/-- Loop invariant of the controller run: the queue was built with
`max_in_flight = 1`, its pending list is drained within the same event
handler that fills it, and a job is in flight only while the controller
is in `Processing` with no live recording. -/
def ControllerInv (s : LoopState) : Prop :=
  s.queue.max_in_flight = 1 ∧ s.queue.pending = [] ∧ s.queue.in_flight ≤ 1 ∧
    (s.queue.in_flight = 1 → s.active_recording = false ∧ s.state = .processing)

/-- States reachable by the loop from `start` under a fixed config and
clipboard closure. -/
inductive Reaches (cfg : ControllerConfig)
    (write_clipboard : String → Except AppError Unit) (start : LoopState) :
    LoopState → Prop where
  | refl : Reaches cfg write_clipboard start start
  | step {t u : LoopState} {event : ControllerEvent}
      {outs : List ControllerOutput} :
      Reaches cfg write_clipboard start t →
      stepController cfg write_clipboard t event = (.next u, outs) →
      Reaches cfg write_clipboard start u

/-! ### Concrete fixtures used by witness theorems -/

/-- A 45-byte RIFF/WAVE file: header magics plus one byte of PCM beyond
the 44-byte header boundary. -/
def goodWav : List Nat :=
  riffMagic ++ [0, 0, 0, 0] ++ waveMagic ++ List.replicate 33 97

def demoTranscript : TranscriptResult :=
  { run_id := "run-1", backend := "whisper_cpp", transcript := "hello world",
    language := some "en", warnings := [],
    finished_at_rfc3339 := "2026-02-25T00:00:02Z" }

def demoClipboardErr : String → Except AppError Unit :=
  fun _ => .error (.clipboard "clipboard write failed: denied")

def demoClipboardOk : String → Except AppError Unit := fun _ => .ok ()

def demoProcessingState : LoopState :=
  { state := .processing, active_recording := false,
    recording_started_at := none, queue := ⟨1, 1, []⟩ }

def demoRecordingState : LoopState :=
  { state := .recording, active_recording := true,
    recording_started_at := some 0, queue := ⟨1, 0, []⟩ }

/-! ## Theorems -/

/-! ### Single-flight queue (C4) -/

theorem applyOp_bound (q : SingleFlightQueue) (op : QueueOp)
    (h : q.in_flight + q.pending.length ≤ q.max_in_flight) :
    (q.applyOp op).in_flight + (q.applyOp op).pending.length ≤
      (q.applyOp op).max_in_flight ∧
    (q.applyOp op).max_in_flight = q.max_in_flight := by
  cases op with
  | enq path =>
      by_cases hfull : q.max_in_flight ≤ q.in_flight + q.pending.length
      · simp [SingleFlightQueue.applyOp, SingleFlightQueue.enqueue, hfull, h]
      · simp [SingleFlightQueue.applyOp, SingleFlightQueue.enqueue, hfull]
        omega
  | startNext =>
      by_cases hin : q.max_in_flight ≤ q.in_flight
      · simp [SingleFlightQueue.applyOp, SingleFlightQueue.start_next, hin, h]
      · cases hp : q.pending with
        | nil =>
            simp [SingleFlightQueue.applyOp, SingleFlightQueue.start_next, hin, hp]
            simpa [hp] using h
        | cons a rest =>
            simp [SingleFlightQueue.applyOp, SingleFlightQueue.start_next, hin, hp]
            rw [hp] at h
            simp at h
            omega
  | markFinished =>
      by_cases hz : 0 < q.in_flight <;>
        simp [SingleFlightQueue.applyOp, SingleFlightQueue.mark_finished, hz] <;>
        omega

theorem applyOps_bound (ops : List QueueOp) :
    ∀ q : SingleFlightQueue,
      q.in_flight + q.pending.length ≤ q.max_in_flight →
      (q.applyOps ops).in_flight + (q.applyOps ops).pending.length ≤
        (q.applyOps ops).max_in_flight ∧
      (q.applyOps ops).max_in_flight = q.max_in_flight := by
  induction ops with
  | nil => intro q h; simpa [SingleFlightQueue.applyOps] using h
  | cons op rest ih =>
      intro q h
      have h1 := applyOp_bound q op h
      have h2 := ih (q.applyOp op) h1.1
      simpa [SingleFlightQueue.applyOps, h1.2] using
        ⟨h2.1, h2.2.trans h1.2⟩

theorem mark_finished_iterate (k : Nat) :
    ∀ q : SingleFlightQueue,
      ((fun r => SingleFlightQueue.mark_finished r)^[k] q).in_flight =
        q.in_flight - k := by
  induction k with
  | zero => intro q; simp
  | succ n ih =>
      intro q
      rw [Function.iterate_succ_apply, ih]
      by_cases h : 0 < q.in_flight <;>
        simp [SingleFlightQueue.mark_finished, h] <;> omega

/-- C4: for every operation sequence on `SingleFlightQueue.new n`
(`n ≥ 1`) the invariant `in_flight + pending.len ≤ max_in_flight`
holds; `enqueue` fails with the queue-full error exactly when
`in_flight + pending.len ≥ max_in_flight` and otherwise appends to
`pending`; `start_next` pops the FIFO front and increments `in_flight`
exactly when `in_flight < max_in_flight` and `pending` is non-empty,
returning `none` otherwise; `mark_finished` on a queue with
`in_flight = 0` is a no-op, and `k ≥ 1` applications after one
`start_next` leave `in_flight = 0`. -/
theorem singleFlightQueue_spec (n : Nat) (hn : 1 ≤ n) (ops : List QueueOp)
    (q : SingleFlightQueue) (path : String) (k : Nat) (hk : 1 ≤ k) :
    ((SingleFlightQueue.new n).applyOps ops).in_flight +
        ((SingleFlightQueue.new n).applyOps ops).pending.length ≤ n ∧
    (q.max_in_flight ≤ q.in_flight + q.pending.length →
      q.enqueue path =
        .error (.controller "single-flight queue full (max_in_flight=1)")) ∧
    (q.in_flight + q.pending.length < q.max_in_flight →
      q.enqueue path = .ok { q with pending := q.pending ++ [path] }) ∧
    (∀ next rest, q.in_flight < q.max_in_flight → q.pending = next :: rest →
      q.start_next =
        (some next, { q with pending := rest, in_flight := q.in_flight + 1 })) ∧
    (q.max_in_flight ≤ q.in_flight ∨ q.pending = [] →
      q.start_next = (none, q)) ∧
    (q.in_flight = 0 → q.mark_finished = q) ∧
    (q.in_flight = 0 →
      ((fun r => SingleFlightQueue.mark_finished r)^[k] (q.start_next).2).in_flight = 0) := by
  refine ⟨?_, ?_, ?_, ?_, ?_, ?_, ?_⟩
  · have h := applyOps_bound ops (SingleFlightQueue.new n)
      (by simp [SingleFlightQueue.new])
    have hmax : ((SingleFlightQueue.new n).applyOps ops).max_in_flight = n := by
      simpa [SingleFlightQueue.new] using h.2
    rw [hmax] at h
    exact h.1
  · intro hfull
    simp [SingleFlightQueue.enqueue, hfull]
  · intro hroom
    simp [SingleFlightQueue.enqueue, Nat.not_le.mpr hroom]
  · intro next rest hin hp
    simp [SingleFlightQueue.start_next, Nat.not_le.mpr hin, hp]
  · intro h
    rcases h with hin | hp
    · simp [SingleFlightQueue.start_next, hin]
    · by_cases hin : q.max_in_flight ≤ q.in_flight <;>
        simp [SingleFlightQueue.start_next, hin, hp]
  · intro h0
    simp [SingleFlightQueue.mark_finished, h0]
  · intro h0
    rw [mark_finished_iterate]
    have : (q.start_next).2.in_flight ≤ 1 := by
      by_cases hin : q.max_in_flight ≤ q.in_flight
      · simp only [SingleFlightQueue.start_next, if_pos hin]
        omega
      · cases hp : q.pending with
        | nil =>
            simp only [SingleFlightQueue.start_next, if_neg hin, hp]
            omega
        | cons a rest =>
            simp only [SingleFlightQueue.start_next, if_neg hin, hp]
            omega
    omega

/-- C4 witness: the invariant after a concrete operation burst on a
capacity-1 queue, and a concrete full-queue rejection. -/
theorem singleFlightQueue_spec_witness :
    ((SingleFlightQueue.new 1).applyOps
        [.enq "a", .startNext, .markFinished]).in_flight +
      ((SingleFlightQueue.new 1).applyOps
        [.enq "a", .startNext, .markFinished]).pending.length ≤ 1 ∧
    (SingleFlightQueue.mk 1 0 ["a"]).enqueue "b" =
      .error (.controller "single-flight queue full (max_in_flight=1)") := by
  have h := singleFlightQueue_spec 1 (by decide)
    [.enq "a", .startNext, .markFinished] ⟨1, 0, ["a"]⟩ "b" 2 (by decide)
  exact ⟨h.1, h.2.1 (by decide)⟩

/-! ### Capture watchdog (C2, C5) -/

/-- C2: for every lock-acquired watchdog snapshot, in both variants:
`armed` iff `first_frame_seen` or `now - started_at ≤ arming_timeout`;
`stalled` iff `first_frame_seen` and the time since the last observed
frame (in-process) resp. since the last observed growth (subprocess,
after folding the current file-size observation into the state) exceeds
`stall_timeout`; consequently `stalled` implies `first_frame_seen` and
`first_frame_seen` implies `armed`.  (The failed-lock snapshot is the
subject of C5.) -/
theorem watchdogSnapshot_spec (cfg : CaptureWatchdogConfig)
    (first_seen : Bool) (guard : Option Nat) (started_at now : Nat)
    (lstate : LinuxWatchdogState) (lstarted lsize lnow : Nat) :
    (let snap := WatchdogState.snapshot ⟨first_seen, .ok guard, started_at⟩ cfg now
     snap.first_frame_seen = first_seen ∧
     (snap.armed = true ↔
        (first_seen = true ∨ now - started_at ≤ cfg.arming_timeout)) ∧
     (snap.stalled = true ↔
        (first_seen = true ∧
          ∃ last, guard = some last ∧ cfg.stall_timeout < now - last)) ∧
     (snap.stalled = true → snap.first_frame_seen = true) ∧
     (snap.first_frame_seen = true → snap.armed = true)) ∧
    (let upd := linuxWatchdogObserve lstate lsize lnow
     let snap := (linux_watchdog_snapshot (.ok lstate) lstarted cfg lsize lnow).2
     snap.first_frame_seen = upd.first_frame_seen ∧
     (snap.armed = true ↔
        (upd.first_frame_seen = true ∨ lnow - lstarted ≤ cfg.arming_timeout)) ∧
     (snap.stalled = true ↔
        (upd.first_frame_seen = true ∧
          cfg.stall_timeout < lnow - upd.last_growth_at)) ∧
     (snap.stalled = true → snap.first_frame_seen = true) ∧
     (snap.first_frame_seen = true → snap.armed = true)) := by
  constructor
  · refine ⟨rfl, ?_, ?_, ?_, ?_⟩
    · cases first_seen <;> simp [WatchdogState.snapshot]
    · cases first_seen <;> cases guard <;> simp [WatchdogState.snapshot]
    · cases first_seen <;> cases guard <;> simp [WatchdogState.snapshot]
    · cases first_seen <;> simp [WatchdogState.snapshot]
  · refine ⟨rfl, ?_, ?_, ?_, ?_⟩
    · cases hf : (linuxWatchdogObserve lstate lsize lnow).first_frame_seen <;>
        simp [linux_watchdog_snapshot, hf]
    · cases hf : (linuxWatchdogObserve lstate lsize lnow).first_frame_seen <;>
        simp [linux_watchdog_snapshot, hf]
    · cases hf : (linuxWatchdogObserve lstate lsize lnow).first_frame_seen <;>
        simp [linux_watchdog_snapshot, hf]
    · cases hf : (linuxWatchdogObserve lstate lsize lnow).first_frame_seen <;>
        simp [linux_watchdog_snapshot, hf]

/-- C2 witness: a concrete armed snapshot before the arming timeout
with no frame yet observed. -/
theorem watchdogSnapshot_spec_witness :
    (WatchdogState.snapshot ⟨false, .ok none, 0⟩ ⟨2000, 750⟩ 100).armed = true :=
  ((watchdogSnapshot_spec ⟨2000, 750⟩ false none 0 100
    ⟨false, 0, 0⟩ 0 0 0).1.2.1).mpr (Or.inr (by decide))

/-- C5 counterexample: in the in-process variant, when the
`last_frame_at` lock is poisoned and a first frame had been observed,
`snapshot` returns `{armed: true, stalled: true, first_frame_seen:
true}`, not the claimed fail-safe triple
`{armed: false, stalled: true, first_frame_seen: false}`. -/
theorem inprocess_lock_failure_counterexample :
    WatchdogState.snapshot ⟨true, .poisoned, 0⟩ ⟨2000, 750⟩ 10 =
      ⟨true, true, true⟩ ∧
    WatchdogState.snapshot ⟨true, .poisoned, 0⟩ ⟨2000, 750⟩ 10 ≠
      ⟨false, true, false⟩ := by
  exact ⟨rfl, by decide⟩

/-- C5 amended: the fail-safe snapshot
`{armed: false, stalled: true, first_frame_seen: false}` is produced on
lock failure by the subprocess variant; in the in-process variant a
poisoned `last_frame_at` lock only forces `stalled = true` when
`first_frame_seen` is already true (the lock is not consulted
otherwise), while `armed` and `first_frame_seen` are computed
normally. -/
theorem lock_failure_failsafe_spec (first_seen : Bool)
    (started_at now : Nat) (cfg : CaptureWatchdogConfig)
    (lstarted lsize lnow : Nat) :
    linux_watchdog_snapshot .poisoned lstarted cfg lsize lnow =
      (.poisoned, ⟨false, true, false⟩) ∧
    WatchdogState.snapshot ⟨first_seen, .poisoned, started_at⟩ cfg now =
      ⟨first_seen || decide (now - started_at ≤ cfg.arming_timeout),
       first_seen, first_seen⟩ := by
  refine ⟨rfl, ?_⟩
  cases first_seen <;> simp [WatchdogState.snapshot]

/-- C5 amended witness: a concrete poisoned-lock subprocess snapshot. -/
theorem lock_failure_failsafe_spec_witness :
    linux_watchdog_snapshot .poisoned 0 ⟨2000, 750⟩ 100 50 =
      (.poisoned, ⟨false, true, false⟩) :=
  (lock_failure_failsafe_spec false 0 50 ⟨2000, 750⟩ 0 100 50).1

/-! ### Subprocess stop and WAV validation (C7) -/

/-- C7: whenever `stop()` on a subprocess recording returns
`Ok(wav_path)`, the file bytes start with `RIFF` at offset 0, contain
`WAVE` at offset 8, and the file is strictly larger than 44 bytes; and
whenever the file is no larger than the 44-byte header, `stop()`
returns a `Capture` error. -/
theorem subprocess_stop_spec (termination : Option String)
    (path wav : String) (data : List Nat) :
    (subprocess_stop termination path data = .ok wav →
      wav = path ∧ 44 < data.length ∧
      data.take 4 = riffMagic ∧ (data.drop 8).take 4 = waveMagic) ∧
    (data.length ≤ 44 →
      ∃ detail, subprocess_stop termination path data =
        .error (.capture detail)) := by
  cases termination with
  | some detail =>
      refine ⟨?_, ?_⟩
      · intro h; simp [subprocess_stop] at h
      · intro _; exact ⟨detail, rfl⟩
  | none =>
      constructor
      · intro h
        by_cases hshort : data.length < 44
        · simp [subprocess_stop, validate_wav_header, hshort] at h
        · by_cases hexact : data.length = 44
          · simp [subprocess_stop, validate_wav_header, hshort, hexact] at h
          · by_cases hmagic : (data.take 12).take 4 ≠ riffMagic ∨
                ((data.take 12).drop 8).take 4 ≠ waveMagic
            · simp [subprocess_stop, validate_wav_header, hshort, hexact,
                hmagic] at h
            · push_neg at hmagic
              have hwav : wav = path := by
                simp [subprocess_stop, validate_wav_header, hshort, hexact,
                  hmagic.1, hmagic.2] at h
                exact h.symm
              have htake : (data.take 12).take 4 = data.take 4 := by
                rw [List.take_take]
                norm_num
              have hdrop : ((data.take 12).drop 8).take 4 = (data.drop 8).take 4 := by
                rw [List.drop_take]
                norm_num
              refine ⟨hwav, by omega, ?_, ?_⟩
              · rw [← htake]; exact hmagic.1
              · rw [← hdrop]; exact hmagic.2
      · intro hlen
        by_cases hshort : data.length < 44
        · exact ⟨"recorded audio is not a valid WAV file (too short): " ++ path,
            by simp [subprocess_stop, validate_wav_header, hshort]⟩
        · have hexact : data.length = 44 := by omega
          exact ⟨"recorded audio is empty (WAV header present but no PCM frames): " ++ path,
            by simp [subprocess_stop, validate_wav_header, hshort, hexact]⟩

/-- C7 witness: a concrete 45-byte RIFF/WAVE file accepted by `stop`,
and a concrete header-only rejection. -/
theorem subprocess_stop_spec_witness :
    (("p" : String) = "p" ∧ 44 < goodWav.length ∧
      goodWav.take 4 = riffMagic ∧ (goodWav.drop 8).take 4 = waveMagic) ∧
    ∃ detail, subprocess_stop none "q" (List.replicate 44 0) =
      .error (.capture detail) := by
  refine ⟨(subprocess_stop_spec none "p" "p" goodWav).1 ?_,
    (subprocess_stop_spec none "q" "w" (List.replicate 44 0)).2 ?_⟩
  · rfl
  · simp

/-! ### Controller loop: invariant plumbing -/

theorem enqueue_empty_queue (path : String) :
    (SingleFlightQueue.mk 1 0 []).enqueue path = .ok ⟨1, 0, [path]⟩ := by
  simp [SingleFlightQueue.enqueue]

theorem spawn_single_job (path : String) :
    spawn_next_job ⟨1, 0, [path]⟩ path = .ok ⟨1, 1, []⟩ := by
  simp [spawn_next_job, SingleFlightQueue.start_next]

theorem mark_finished_of_le_one (q : SingleFlightQueue)
    (h : q.in_flight ≤ 1) : q.mark_finished.in_flight = 0 := by
  by_cases h0 : 0 < q.in_flight <;>
    simp [SingleFlightQueue.mark_finished, h0] <;> omega

theorem mark_finished_max (q : SingleFlightQueue) :
    q.mark_finished.max_in_flight = q.max_in_flight := by
  by_cases h0 : 0 < q.in_flight <;> simp [SingleFlightQueue.mark_finished, h0]

theorem mark_finished_pending (q : SingleFlightQueue) :
    q.mark_finished.pending = q.pending := by
  by_cases h0 : 0 < q.in_flight <;> simp [SingleFlightQueue.mark_finished, h0]

theorem controllerInv_active_queue (s : LoopState) (hinv : ControllerInv s)
    (hact : s.active_recording = true) : s.queue = ⟨1, 0, []⟩ := by
  obtain ⟨hmax, hpend, hle, hone⟩ := hinv
  have h0 : s.queue.in_flight = 0 := by
    by_contra hne
    have h1 : s.queue.in_flight = 1 := by omega
    have hf := (hone h1).1
    rw [hact] at hf
    cases hf
  have heta : s.queue =
      ⟨s.queue.max_in_flight, s.queue.in_flight, s.queue.pending⟩ := rfl
  rw [heta, hmax, hpend, h0]

/-- Soundness of one loop iteration: from an invariant state the step
either continues in an invariant state or is the `Shutdown` arm; it
never propagates an error. -/
theorem stepController_sound (cfg : ControllerConfig)
    (wc : String → Except AppError Unit) (s : LoopState)
    (e : ControllerEvent) (hinv : ControllerInv s) :
    (∃ s1 outs, stepController cfg wc s e = (.next s1, outs) ∧
      ControllerInv s1) ∨
    (stepController cfg wc s e = (.stoppedOk, [.stopped]) ∧
      e = .shutdown) := by
  obtain ⟨hmax, hpend, hle, hone⟩ := hinv
  cases e with
  | shutdown => exact Or.inr ⟨rfl, rfl⟩
  | runDoctor =>
      exact Or.inl ⟨s, [.doctorReport], rfl, hmax, hpend, hle, hone⟩
  | transcriptionFinished wav result =>
      left
      have hq0 : s.queue.mark_finished.in_flight = 0 :=
        mark_finished_of_le_one s.queue hle
      have hinv1 : ∀ st1 : ControllerState,
          ControllerInv { s with state := st1, queue := s.queue.mark_finished } := by
        intro st1
        refine ⟨?_, ?_, ?_, ?_⟩
        · show s.queue.mark_finished.max_in_flight = 1
          rw [mark_finished_max]; exact hmax
        · show s.queue.mark_finished.pending = []
          rw [mark_finished_pending]; exact hpend
        · show s.queue.mark_finished.in_flight ≤ 1
          omega
        · intro h1
          have h2 : s.queue.mark_finished.in_flight = 1 := h1
          rw [hq0] at h2
          cases h2
      cases result with
      | error reason =>
          refine ⟨{ s with
              state := .degraded ("transcription job failed: " ++ reason),
              queue := s.queue.mark_finished },
            [.stateChanged (.degraded ("transcription job failed: " ++ reason)),
             .notification ("transcription job failed: " ++ reason)], ?_, hinv1 _⟩
          simp [stepController, handleFinished]
      | ok r =>
          by_cases hmode : cfg.output_mode = OutputMode.clipboardOnly
          · cases hclip : wc r.transcript with
            | error err =>
                refine ⟨{ s with
                    state := .degraded ("clipboard output failed: " ++ err.display),
                    queue := s.queue.mark_finished },
                  [.stateChanged (.degraded ("clipboard output failed: " ++ err.display)),
                   .notification ("clipboard output failed: " ++ err.display)],
                  ?_, hinv1 _⟩
                simp [stepController, handleFinished, hmode, hclip]
            | ok u =>
                refine ⟨{ s with state := .idle, queue := s.queue.mark_finished },
                  [.transcriptReady r, .stateChanged .idle,
                   .notification "Transcription complete"], ?_, hinv1 _⟩
                simp [stepController, handleFinished, hmode, hclip]
          · refine ⟨{ s with state := .idle, queue := s.queue.mark_finished },
              [.transcriptReady r, .stateChanged .idle,
               .notification "Transcription complete"], ?_, hinv1 _⟩
            simp [stepController, handleFinished, hmode]
  | toggle now sr st =>
      left
      have hnp : s.state ≠ .processing → s.queue.in_flight ≠ 1 := by
        intro hns h1
        exact hns (hone h1).2
      cases hstate : s.state with
      | idle =>
          cases sr with
          | ok u =>
              refine ⟨{ s with
                  state := .recording,
                  active_recording := true,
                  recording_started_at := some now },
                [.stateChanged .recording, .notification "Recording started"],
                by simp [stepController, handleToggle, hstate], ?_⟩
              refine ⟨hmax, hpend, hle, fun h1 => ?_⟩
              exact absurd h1 (hnp (by rw [hstate]; simp))
          | error err =>
              refine ⟨{ s with
                  state := .degraded ("recording start failed: " ++ err.display) },
                [.stateChanged (.degraded ("recording start failed: " ++ err.display)),
                 .notification ("recording start failed: " ++ err.display)],
                by simp [stepController, handleToggle, hstate], ?_⟩
              refine ⟨hmax, hpend, hle, fun h1 => ?_⟩
              exact absurd h1 (hnp (by rw [hstate]; simp))
      | degraded reason =>
          cases sr with
          | ok u =>
              refine ⟨{ s with
                  state := .recording,
                  active_recording := true,
                  recording_started_at := some now },
                [.stateChanged .recording, .notification "Recording started"],
                by simp [stepController, handleToggle, hstate], ?_⟩
              refine ⟨hmax, hpend, hle, fun h1 => ?_⟩
              exact absurd h1 (hnp (by rw [hstate]; simp))
          | error err =>
              refine ⟨{ s with
                  state := .degraded ("recording start failed: " ++ err.display) },
                [.stateChanged (.degraded ("recording start failed: " ++ err.display)),
                 .notification ("recording start failed: " ++ err.display)],
                by simp [stepController, handleToggle, hstate], ?_⟩
              refine ⟨hmax, hpend, hle, fun h1 => ?_⟩
              exact absurd h1 (hnp (by rw [hstate]; simp))
      | processing =>
          exact ⟨s,
            [.notification "Transcription already in progress; finishing current job."],
            by simp [stepController, handleToggle, hstate],
            hmax, hpend, hle, hone⟩
      | recording =>
          cases hact : s.active_recording with
          | false =>
              exact ⟨s, [],
                by simp [stepController, handleToggle, hstate, hact],
                hmax, hpend, hle, hone⟩
          | true =>
              have hq : s.queue = ⟨1, 0, []⟩ :=
                controllerInv_active_queue s ⟨hmax, hpend, hle, hone⟩ hact
              cases st with
              | ok wav =>
                  refine ⟨{ s with
                      state := .processing,
                      active_recording := false,
                      recording_started_at := none,
                      queue := ⟨1, 1, []⟩ },
                    [.stateChanged .processing], ?_, ?_⟩
                  · simp [stepController, handleToggle, hstate, hact, hq,
                      enqueue_empty_queue, spawn_single_job]
                  · exact ⟨rfl, rfl, by decide, fun _ => ⟨rfl, rfl⟩⟩
              | error err =>
                  refine ⟨{ s with
                      state := .degraded ("failed to finalize recording: " ++ err.display),
                      active_recording := false,
                      recording_started_at := none },
                    [.stateChanged (.degraded ("failed to finalize recording: " ++ err.display)),
                     .notification ("failed to finalize recording: " ++ err.display)],
                    by simp [stepController, handleToggle, hstate, hact], ?_⟩
                  refine ⟨hmax, hpend, hle, fun h1 => ?_⟩
                  rw [hq] at h1
                  cases h1
  | tick now snap st =>
      left
      cases hact : s.active_recording with
      | false =>
          refine ⟨{ s with active_recording := false }, [], ?_, ?_⟩
          · cases hstart : s.recording_started_at <;>
              simp [stepController, handleTick, tickWatchdogPhase, hact, hstart]
          · exact ⟨hmax, hpend, hle, fun h1 => ⟨rfl, (hone h1).2⟩⟩
      | true =>
          have hq : s.queue = ⟨1, 0, []⟩ :=
            controllerInv_active_queue s ⟨hmax, hpend, hle, hone⟩ hact
          have h1imp : s.queue.in_flight = 1 → False := by
            intro h1
            rw [hq] at h1
            cases h1
          cases harm : snap.armed with
          | false =>
              refine ⟨{ s with
                  state := .degraded
                    ("capture watchdog arming timeout exceeded (first_frame_seen=" ++
                      toString snap.first_frame_seen ++ ")"),
                  active_recording := false,
                  recording_started_at := none },
                [.stateChanged (.degraded
                  ("capture watchdog arming timeout exceeded (first_frame_seen=" ++
                    toString snap.first_frame_seen ++ ")")),
                 .notification "Capture watchdog arming timeout exceeded; recording aborted."],
                ?_, ?_⟩
              · simp [stepController, handleTick, tickWatchdogPhase, hact, harm]
              · exact ⟨hmax, hpend, hle, fun h1 => absurd h1 h1imp⟩
          | true =>
              cases hstall : snap.stalled with
              | true =>
                  refine ⟨{ s with
                      state := .degraded
                        ("capture watchdog stall detected (first_frame_seen=" ++
                          toString snap.first_frame_seen ++ ")"),
                      active_recording := false,
                      recording_started_at := none },
                    [.stateChanged (.degraded
                      ("capture watchdog stall detected (first_frame_seen=" ++
                        toString snap.first_frame_seen ++ ")")),
                     .notification "Capture watchdog detected stalled input; recording aborted."],
                    ?_, ?_⟩
                  · simp [stepController, handleTick, tickWatchdogPhase, hact, harm, hstall]
                  · exact ⟨hmax, hpend, hle, fun h1 => absurd h1 h1imp⟩
              | false =>
                  cases hstart : s.recording_started_at with
                  | none =>
                      refine ⟨{ s with active_recording := false }, [], ?_, ?_⟩
                      · simp [stepController, handleTick, tickWatchdogPhase,
                          hact, harm, hstall, hstart]
                      · exact ⟨hmax, hpend, hle, fun h1 => absurd h1 h1imp⟩
                  | some t =>
                      by_cases hdur : cfg.max_recording_seconds < now - t
                      · cases st with
                        | ok wav =>
                            refine ⟨{ s with
                                state := .processing,
                                active_recording := false,
                                recording_started_at := none,
                                queue := ⟨1, 1, []⟩ },
                              [.stateChanged .processing], ?_, ?_⟩
                            · simp [stepController, handleTick, tickWatchdogPhase,
                                hact, harm, hstall, hstart, hdur, hq,
                                enqueue_empty_queue, spawn_single_job]
                            · exact ⟨rfl, rfl, by decide, fun _ => ⟨rfl, rfl⟩⟩
                        | error err =>
                            refine ⟨{ s with
                                state := .degraded
                                  ("failed to finalize timed recording: " ++ err.display),
                                active_recording := false,
                                recording_started_at := none },
                              [.stateChanged (.degraded
                                ("failed to finalize timed recording: " ++ err.display)),
                               .notification
                                ("failed to finalize timed recording: " ++ err.display)],
                              ?_, ?_⟩
                            · simp [stepController, handleTick, tickWatchdogPhase,
                                hact, harm, hstall, hstart, hdur]
                            · exact ⟨hmax, hpend, hle, fun h1 => absurd h1 h1imp⟩
                      · refine ⟨s, [], ?_, ?_⟩
                        · simp [stepController, handleTick, tickWatchdogPhase,
                            hact, harm, hstall, hstart, hdur]
                        · exact ⟨hmax, hpend, hle, hone⟩

theorem initial_controllerInv : ControllerInv initialLoopState := by
  refine ⟨rfl, rfl, by decide, ?_⟩
  intro h1
  cases h1

theorem reaches_controllerInv (cfg : ControllerConfig)
    (wc : String → Except AppError Unit) (s : LoopState)
    (h : Reaches cfg wc initialLoopState s) : ControllerInv s := by
  induction h with
  | refl => exact initial_controllerInv
  | step hr hstep ih =>
      rcases stepController_sound cfg wc _ _ ih with
        ⟨s1, outs, heq, hinv1⟩ | ⟨heq, _⟩
      · rw [heq] at hstep
        injection hstep with h1 h2
        injection h1 with h3
        rw [← h3]
        exact hinv1
      · rw [heq] at hstep
        cases hstep

/-! ### Controller loop: claim theorems -/

theorem tickWatchdogPhase_no_stopped (s : LoopState)
    (snap : WatchdogSnapshot) :
    ControllerOutput.stopped ∉ (tickWatchdogPhase s snap).2 := by
  simp only [tickWatchdogPhase]
  split
  · split
    · simp
    · split <;> simp
  · simp

theorem stepController_no_stopped (cfg : ControllerConfig)
    (wc : String → Except AppError Unit) (s : LoopState)
    (e : ControllerEvent) (hne : e ≠ ControllerEvent.shutdown) :
    ControllerOutput.stopped ∉ (stepController cfg wc s e).2 := by
  cases e with
  | shutdown => exact absurd rfl hne
  | runDoctor => simp [stepController]
  | toggle now sr st =>
      simp only [stepController, handleToggle]
      split
      all_goals try split
      all_goals try split
      all_goals try split
      all_goals try split
      all_goals simp
  | transcriptionFinished wav result =>
      simp only [stepController, handleFinished]
      split
      all_goals try split
      all_goals try split
      all_goals simp
  | tick now snap st =>
      have hwp := tickWatchdogPhase_no_stopped s snap
      simp only [stepController, handleTick]
      split
      all_goals try split
      all_goals try split
      all_goals try split
      all_goals try split
      all_goals simp_all

theorem stepController_shutdown (cfg : ControllerConfig)
    (wc : String → Except AppError Unit) (s : LoopState) :
    stepController cfg wc s .shutdown = (.stoppedOk, [.stopped]) := rfl

theorem runLoop_stopped_structure (cfg : ControllerConfig)
    (wc : String → Except AppError Unit) :
    ∀ (events : List ControllerEvent) (s : LoopState), ControllerInv s →
      ControllerEvent.shutdown ∈ events →
      ∃ front, (runLoop cfg wc s events).1 = front ++ [.stopped] ∧
        ControllerOutput.stopped ∉ front := by
  intro events
  induction events with
  | nil => intro s _ hmem; simp at hmem
  | cons e rest ih =>
      intro s hinv hmem
      by_cases he : e = ControllerEvent.shutdown
      · subst he
        exact ⟨[], by simp [runLoop, stepController], by simp⟩
      · have hmem2 : ControllerEvent.shutdown ∈ rest := by
          rcases List.mem_cons.mp hmem with h | h
          · exact absurd h.symm he
          · exact h
        rcases stepController_sound cfg wc s e hinv with
          ⟨s1, outs, heq, hinv1⟩ | ⟨_, heq2⟩
        · obtain ⟨front, hfront, hnot⟩ := ih s1 hinv1 hmem2
          refine ⟨outs ++ front, ?_, ?_⟩
          · simp [runLoop, heq, hfront]
          · intro hmem3
            rcases List.mem_append.mp hmem3 with h | h
            · have hns := stepController_no_stopped cfg wc s e he
              rw [heq] at hns
              exact hns h
            · exact hnot h
        · exact absurd heq2 he

/-- C8: in every controller run whose event stream contains `Shutdown`,
exactly one `Stopped` is emitted and it is the final output (every
output before it differs from `Stopped`); and no event other than
`Shutdown` ever makes the controller emit `Stopped`. -/
theorem controller_run_single_stopped (cfg : ControllerConfig)
    (wc : String → Except AppError Unit) (events : List ControllerEvent)
    (hmem : ControllerEvent.shutdown ∈ events) :
    (∃ front, (runController cfg wc events).1 = front ++ [.stopped] ∧
      ControllerOutput.stopped ∉ front) ∧
    ∀ (s : LoopState) (e : ControllerEvent), e ≠ ControllerEvent.shutdown →
      ControllerOutput.stopped ∉ (stepController cfg wc s e).2 := by
  constructor
  · obtain ⟨front, hfront, hnot⟩ :=
      runLoop_stopped_structure cfg wc events initialLoopState
        initial_controllerInv hmem
    refine ⟨ControllerOutput.stateChanged .idle :: front, ?_, ?_⟩
    · simp [runController, hfront]
    · intro hmem2
      rcases List.mem_cons.mp hmem2 with h | h
      · cases h
      · exact hnot h
  · exact fun s e he => stepController_no_stopped cfg wc s e he

/-- C8 witness: a concrete shutdown-terminated run whose last output is
`Stopped`. -/
theorem controller_run_single_stopped_witness :
    (runController ⟨.disabled, 300⟩ demoClipboardOk
      [ControllerEvent.shutdown]).1.getLast? =
      some ControllerOutput.stopped := by
  obtain ⟨front, hfront, -⟩ :=
    (controller_run_single_stopped ⟨.disabled, 300⟩ demoClipboardOk
      [ControllerEvent.shutdown] (by simp)).1
  rw [hfront]
  simp

/-- C1: on `TranscriptionFinished(Ok(result))` with
`output.mode = ClipboardOnly` and a failing clipboard write, the
controller transitions to `Degraded("clipboard output failed: <error>")`
and emits exactly `StateChanged(Degraded(..))` then `Notification(..)`,
and no `TranscriptReady` is emitted for that result. -/
theorem clipboard_failure_aborts_ok_path (cfg : ControllerConfig)
    (wc : String → Except AppError Unit) (s : LoopState) (wav : String)
    (result : TranscriptResult) (error : AppError)
    (hmode : cfg.output_mode = OutputMode.clipboardOnly)
    (hclip : wc result.transcript = .error error) :
    stepController cfg wc s (.transcriptionFinished wav (.ok result)) =
      (.next { s with
          state := .degraded ("clipboard output failed: " ++ error.display),
          queue := s.queue.mark_finished },
       [.stateChanged (.degraded ("clipboard output failed: " ++ error.display)),
        .notification ("clipboard output failed: " ++ error.display)]) ∧
    ∀ r, ControllerOutput.transcriptReady r ∉
      (stepController cfg wc s (.transcriptionFinished wav (.ok result))).2 := by
  have hstep : stepController cfg wc s (.transcriptionFinished wav (.ok result)) =
      (.next { s with
          state := .degraded ("clipboard output failed: " ++ error.display),
          queue := s.queue.mark_finished },
       [.stateChanged (.degraded ("clipboard output failed: " ++ error.display)),
        .notification ("clipboard output failed: " ++ error.display)]) := by
    simp [stepController, handleFinished, hmode, hclip]
  refine ⟨hstep, ?_⟩
  intro r
  rw [hstep]
  simp

/-- C1 witness: a concrete clipboard failure while `Processing`. -/
theorem clipboard_failure_aborts_ok_path_witness :
    stepController ⟨.clipboardOnly, 300⟩ demoClipboardErr demoProcessingState
      (.transcriptionFinished "w.wav" (.ok demoTranscript)) =
      (.next { demoProcessingState with
          state := .degraded ("clipboard output failed: " ++
            (AppError.clipboard "clipboard write failed: denied").display),
          queue := demoProcessingState.queue.mark_finished },
       [.stateChanged (.degraded ("clipboard output failed: " ++
          (AppError.clipboard "clipboard write failed: denied").display)),
        .notification ("clipboard output failed: " ++
          (AppError.clipboard "clipboard write failed: denied").display)]) :=
  (clipboard_failure_aborts_ok_path ⟨.clipboardOnly, 300⟩ demoClipboardErr
    demoProcessingState "w.wav" demoTranscript
    (.clipboard "clipboard write failed: denied") rfl rfl).1

/-- C3: on `Tick` while a live recording is held, an unarmed or stalled
watchdog snapshot stops the recording and degrades with the matching
watchdog reason regardless of elapsed time (so before any max-duration
handling); only a healthy snapshot reaches the max-duration check,
which stops, enqueues and starts the job and transitions to
`Processing` when `now - started_at` exceeds `max_recording_seconds`
(`Degraded` with detail on stop failure), and leaves the state
untouched otherwise. -/
theorem tick_watchdog_precedes_max_duration (cfg : ControllerConfig)
    (wc : String → Except AppError Unit) (s : LoopState) (now : Nat)
    (snap : WatchdogSnapshot) (st : Except AppError String) (t : Nat)
    (hact : s.active_recording = true)
    (hstart : s.recording_started_at = some t) :
    (snap.armed = false →
      stepController cfg wc s (.tick now snap st) =
        (.next { s with
            state := .degraded
              ("capture watchdog arming timeout exceeded (first_frame_seen=" ++
                toString snap.first_frame_seen ++ ")"),
            active_recording := false,
            recording_started_at := none },
         [.stateChanged (.degraded
            ("capture watchdog arming timeout exceeded (first_frame_seen=" ++
              toString snap.first_frame_seen ++ ")")),
          .notification
            "Capture watchdog arming timeout exceeded; recording aborted."])) ∧
    (snap.armed = true → snap.stalled = true →
      stepController cfg wc s (.tick now snap st) =
        (.next { s with
            state := .degraded
              ("capture watchdog stall detected (first_frame_seen=" ++
                toString snap.first_frame_seen ++ ")"),
            active_recording := false,
            recording_started_at := none },
         [.stateChanged (.degraded
            ("capture watchdog stall detected (first_frame_seen=" ++
              toString snap.first_frame_seen ++ ")")),
          .notification
            "Capture watchdog detected stalled input; recording aborted."])) ∧
    (snap.armed = true → snap.stalled = false →
      now - t ≤ cfg.max_recording_seconds →
      stepController cfg wc s (.tick now snap st) = (.next s, [])) ∧
    (∀ wav, snap.armed = true → snap.stalled = false →
      cfg.max_recording_seconds < now - t → st = .ok wav →
      s.queue.in_flight = 0 → s.queue.pending = [] →
      s.queue.max_in_flight = 1 →
      stepController cfg wc s (.tick now snap st) =
        (.next { s with
            state := .processing,
            active_recording := false,
            recording_started_at := none,
            queue := ⟨1, 1, []⟩ },
         [.stateChanged .processing])) ∧
    (∀ error, snap.armed = true → snap.stalled = false →
      cfg.max_recording_seconds < now - t → st = .error error →
      stepController cfg wc s (.tick now snap st) =
        (.next { s with
            state := .degraded
              ("failed to finalize timed recording: " ++ error.display),
            active_recording := false,
            recording_started_at := none },
         [.stateChanged (.degraded
            ("failed to finalize timed recording: " ++ error.display)),
          .notification
            ("failed to finalize timed recording: " ++ error.display)])) := by
  refine ⟨?_, ?_, ?_, ?_, ?_⟩
  · intro harm
    simp [stepController, handleTick, tickWatchdogPhase, hact, harm]
  · intro harm hstall
    simp [stepController, handleTick, tickWatchdogPhase, hact, harm, hstall]
  · intro harm hstall hdur
    simp [stepController, handleTick, tickWatchdogPhase, hact, harm, hstall,
      hstart, Nat.not_lt.mpr hdur]
  · intro wav harm hstall hdur hst h0 hp hm
    have hq : s.queue = ⟨1, 0, []⟩ := by
      have heta : s.queue =
          ⟨s.queue.max_in_flight, s.queue.in_flight, s.queue.pending⟩ := rfl
      rw [heta, hm, hp, h0]
    subst hst
    simp [stepController, handleTick, tickWatchdogPhase, hact, harm, hstall,
      hstart, hdur, hq, enqueue_empty_queue, spawn_single_job]
  · intro error harm hstall hdur hst
    subst hst
    simp [stepController, handleTick, tickWatchdogPhase, hact, harm, hstall,
      hstart, hdur]

/-- C3 witness: with `max_recording_seconds = 1` and an expired
recording whose snapshot is unarmed, the arming-timeout degradation
fires (not the max-duration path). -/
theorem tick_watchdog_precedes_max_duration_witness :
    stepController ⟨.disabled, 1⟩ demoClipboardOk demoRecordingState
      (.tick 5 ⟨false, false, false⟩ (.ok "w.wav")) =
      (.next { demoRecordingState with
          state := .degraded
            ("capture watchdog arming timeout exceeded (first_frame_seen=" ++
              toString false ++ ")"),
          active_recording := false,
          recording_started_at := none },
       [.stateChanged (.degraded
          ("capture watchdog arming timeout exceeded (first_frame_seen=" ++
            toString false ++ ")")),
        .notification
          "Capture watchdog arming timeout exceeded; recording aborted."]) :=
  (tick_watchdog_precedes_max_duration ⟨.disabled, 1⟩ demoClipboardOk
    demoRecordingState 5 ⟨false, false, false⟩ (.ok "w.wav") 0 rfl rfl).1 rfl

/-- C6: the `ControllerState` enum declared in `controller/state.rs`
has exactly the four variants `Idle`, `Recording`, `Processing`,
`Degraded(reason)`; there is no `Unavailable` variant (so no
`"recording disabled"` Toggle handling can exist in the controller,
although `ui/tray.rs`, `runtime/app.rs` and the release-gate test still
refer to one). -/
theorem controllerState_four_variants (s : ControllerState) :
    s = .idle ∨ s = .recording ∨ s = .processing ∨
      ∃ reason, s = .degraded reason := by
  cases s with
  | idle => exact Or.inl rfl
  | recording => exact Or.inr (Or.inl rfl)
  | processing => exact Or.inr (Or.inr (Or.inl rfl))
  | degraded reason => exact Or.inr (Or.inr (Or.inr ⟨reason, rfl⟩))

/-- C10: in every loop state reachable from the initial state in which
a live recording is held, the queue has `in_flight = 0` and empty
`pending`, so the `enqueue` performed by the stop paths always
succeeds: the stop `Toggle` in `Recording` and the expired-duration
`Tick` both transition to `Processing`, never through the
`"unable to enqueue"` `Degraded` branches. -/
theorem reachable_stop_enqueue_succeeds (cfg : ControllerConfig)
    (wc : String → Except AppError Unit) (s : LoopState)
    (hreach : Reaches cfg wc initialLoopState s)
    (hact : s.active_recording = true) :
    s.queue.in_flight = 0 ∧ s.queue.pending = [] ∧
    (∀ path, s.queue.enqueue path = .ok ⟨1, 0, [path]⟩) ∧
    (s.state = .recording → ∀ now sr wav,
      stepController cfg wc s (.toggle now sr (.ok wav)) =
        (.next { s with
            state := .processing,
            active_recording := false,
            recording_started_at := none,
            queue := ⟨1, 1, []⟩ },
         [.stateChanged .processing])) ∧
    (∀ now snap wav t, s.recording_started_at = some t →
      snap.armed = true → snap.stalled = false →
      cfg.max_recording_seconds < now - t →
      stepController cfg wc s (.tick now snap (.ok wav)) =
        (.next { s with
            state := .processing,
            active_recording := false,
            recording_started_at := none,
            queue := ⟨1, 1, []⟩ },
         [.stateChanged .processing])) := by
  have hinv := reaches_controllerInv cfg wc s hreach
  have hq := controllerInv_active_queue s hinv hact
  refine ⟨by rw [hq], by rw [hq], ?_, ?_, ?_⟩
  · intro path
    rw [hq]
    exact enqueue_empty_queue path
  · intro hstate now sr wav
    simp [stepController, handleToggle, hstate, hact, hq,
      enqueue_empty_queue, spawn_single_job]
  · intro now snap wav t hstart harm hstall hdur
    simp [stepController, handleTick, tickWatchdogPhase, hact, harm, hstall,
      hstart, hdur, hq, enqueue_empty_queue, spawn_single_job]

/-- C10 witness: the state reached by one successful start `Toggle`
holds a live recording and an empty queue. -/
theorem reachable_stop_enqueue_succeeds_witness :
    demoRecordingState.queue.in_flight = 0 ∧
    demoRecordingState.queue.pending = [] := by
  have hreach : Reaches ⟨.disabled, 300⟩ demoClipboardOk initialLoopState
      demoRecordingState :=
    Reaches.step Reaches.refl
      (show stepController ⟨.disabled, 300⟩ demoClipboardOk initialLoopState
          (.toggle 0 (.ok ()) (.ok "w.wav")) =
        (.next demoRecordingState,
         [.stateChanged .recording, .notification "Recording started"]) from rfl)
  have h := reachable_stop_enqueue_succeeds ⟨.disabled, 300⟩ demoClipboardOk
    demoRecordingState hreach rfl
  exact ⟨h.1, h.2.1⟩

end Quedo
